import Mathlib

/-
Verification development for the host-observability daemon
(monitoring-and-analysis-ai).

The Python sources under analysis are embedded shallowly:

  * Python values that flow through the analyzers (JSON-like dicts) are
    modelled by the inductive type `JVal`; dictionaries are association
    lists `PyDict`.
  * Pure functions (`analysis.py`, `rag/document_builder.py`,
    `os_env.py`) become Lean functions over this model.  Python code
    that can raise a runtime `TypeError`/`AttributeError` (for example
    comparing a string with a number) is modelled with `Option`:
    `none` is an uncaught exception, `some r` a normal return.
  * Interpreter-provided renderings (`str()` of floats, lists and
    dicts, `datetime.isoformat`) are modelled by explicit total
    functions; no statement proved below depends on the exact spelling
    these renderings produce, only on the structure of the code around
    them.  `str.lower`, `str.upper` and `str.startswith` are modelled
    by executable character-list functions (ASCII case mapping).
-/

/-- JSON-like Python value: the payloads flowing through the pipeline. -/
inductive JVal where
  | null
  | bool (b : Bool)
  | num (q : Rat)
  | str (s : String)
  | arr (xs : List JVal)
  | obj (kvs : List (String × JVal))

/-- A Python dictionary with string keys, as an association list. -/
def PyDict := List (String × JVal)

/-- Python `d.get(k)`: first binding of `k`, if any. -/
def dget (kvs : List (String × JVal)) (k : String) : Option JVal :=
  (kvs.find? (fun kv => kv.1 == k)).map (·.2)

/-- Python truthiness of a value (`if x:`). -/
def pyTruthy : JVal → Bool
  | JVal.null => false
  | JVal.bool b => b
  | JVal.num q => q != 0
  | JVal.str s => s ≠ ""
  | JVal.arr xs => !xs.isEmpty
  | JVal.obj kvs => !kvs.isEmpty

/-- ASCII lower-casing of one character (model of `str.lower`). -/
def charLower (c : Char) : Char :=
  if 'A' ≤ c ∧ c ≤ 'Z' then Char.ofNat (c.toNat + 32) else c

/-- Model of Python `s.lower()`. -/
def strLower (s : String) : String := String.mk (s.data.map charLower)

/-- ASCII upper-casing of one character (model of `str.upper`). -/
def charUpper (c : Char) : Char :=
  if 'a' ≤ c ∧ c ≤ 'z' then Char.ofNat (c.toNat - 32) else c

/-- Model of Python `s.upper()`. -/
def strUpper (s : String) : String := String.mk (s.data.map charUpper)

/-- Model of Python `s.startswith(pre)`. -/
def strStarts (s pre : String) : Bool := pre.data.isPrefixOf s.data

/-- Rendering of a rational as Python would print the number.  Integral
values print like Python ints; the non-integral rendering is a modelled
stand-in for float repr (no theorem below depends on its spelling). -/
def ratStr (q : Rat) : String :=
  if q.den = 1 then toString q.num else toString q.num ++ "/" ++ toString q.den

/-- Python `str(x)`.  Primitive values are rendered exactly; the
interpreter rendering of composite values is modelled opaquely. -/
def pyStr : JVal → String
  | JVal.null => "None"
  | JVal.bool b => if b then "True" else "False"
  | JVal.num q => ratStr q
  | JVal.str s => s
  | JVal.arr _ => "[list]"
  | JVal.obj _ => "dict"

/-- `normalize_str` from analysis.py applied to the result of a `.get`:
`None` (a missing key or a JSON null) becomes the empty string, any
other value is passed through `str`. -/
def normStr : Option JVal → String
  | none => ""
  | some JVal.null => ""
  | some v => pyStr v

/-- `normalize_str` applied directly to a value. -/
def normStrV (v : JVal) : String := normStr (some v)

/-- Numeric reading of a value on the left of a Python order comparison:
numbers and booleans compare as numbers, anything else raises
`TypeError` (modelled as `none`). -/
def pyNum : JVal → Option Rat
  | JVal.num q => some q
  | JVal.bool b => some (if b then 1 else 0)
  | _ => none

/-- `d.get(k, 0)` followed by use in a numeric comparison: a missing key
counts as 0, a non-numeric value raises. -/
def getNum (d : List (String × JVal)) (k : String) : Option Rat :=
  match dget d k with
  | none => some 0
  | some v => pyNum v

/-- Python `a or b` on values: `a` when truthy, else `b`. -/
def pyOr (a b : JVal) : JVal := if pyTruthy a then a else b

/-- Substring test on character lists (Python `needle in hay`). -/
def listContainsSub (needle : List Char) : List Char → Bool
  | [] => needle.isEmpty
  | c :: rest => needle.isPrefixOf (c :: rest) || listContainsSub needle rest

/-- Python `needle in hay` for strings. -/
def strContains (hay needle : String) : Bool :=
  listContainsSub needle.toList hay.toList

/- ==========================================================
   analysis.py — process analyzer
   ========================================================== -/

/-- `ROOTS` from analysis.py. -/
def ROOTS : List String := ["root", "system", "nt authority\\system"]

/-- `suspicious_roots` from `analyze_process`. -/
def suspiciousRoots : List String :=
  ["tmp", "private", "cache", "shm", "var/tmp", "appdata\\local\\temp"]

/-- Output record of `analyze_process`. -/
structure ProcResult where
  name : String
  exe : String
  username : String
  risk_score : Nat
  reasons : List String
deriving DecidableEq

/-- Section 1 of `analyze_process`: executable-path checks (score
contribution and reasons, in source order). -/
def procExeCheck (exe : String) : Nat × List String :=
  if exe = "" then
    (2, ["Process has no executable path (often hidden or kernel thread)."])
  else
    let lowerExe := strLower exe
    let p1 :=
      if suspiciousRoots.any (fun part => strContains lowerExe part) then
        ((2 : Nat), ["Executable located in suspicious directory: " ++ exe])
      else (0, [])
    let p2 :=
      if exe.length > 260 then
        ((1 : Nat), ["Executable path unusually long, may indicate obfuscation."])
      else (0, [])
    (p1.1 + p2.1, p1.2 ++ p2.2)

/-- Section 2 of `analyze_process`, CPU branch. -/
def procCpuCheck (cpu : Rat) : Nat × List String :=
  if cpu > 50 then (2, ["High CPU usage (potential mining/loop)."])
  else if cpu > 20 then (1, ["Elevated CPU usage."])
  else (0, [])

/-- Section 2 of `analyze_process`, memory branch. -/
def procMemCheck (mem : Rat) : Nat × List String :=
  if mem > 20 then (2, ["High memory usage."])
  else if mem > 10 then (1, ["Elevated memory usage."])
  else (0, [])

/-- Section 3 of `analyze_process`: privileged-user check. -/
def procUserCheck (username : String) (cpu mem : Rat) : Nat × List String :=
  if username ≠ "" ∧ strLower username ∈ ROOTS ∧ (cpu > 10 ∨ mem > 10) then
    (2, ["Privileged system process with unusual resource usage."])
  else (0, [])

/-- Per-connection hit condition of section 4 of `analyze_process`. -/
def connHit (kvs : List (String × JVal)) : Bool :=
  pyTruthy ((dget kvs "remote_address").getD JVal.null) &&
    !(["established", "listen", "none", ""].contains
        (strLower (normStr (dget kvs "status"))))

/-- Section 4 of `analyze_process`: iterate the connection list.  A
non-dict element raises (`conn.get` on it fails), modelled as `none`. -/
def procConnCheck : List JVal → Option (Nat × List String)
  | [] => some (0, [])
  | c :: rest =>
    match c with
    | JVal.obj kvs =>
      (procConnCheck rest).map (fun p =>
        if connHit kvs then
          (p.1 + 1,
            ("Unexpected remote connection state: " ++
              strLower (normStr (dget kvs "status")) ++ " -> " ++
              pyStr ((dget kvs "remote_address").getD JVal.null)) :: p.2)
        else p)
    | _ => none

/-- The connection block of `analyze_process`: the `isinstance` guard
skips non-list values. -/
def procConnPart (v : JVal) : Option (Nat × List String) :=
  match v with
  | JVal.arr xs => procConnCheck xs
  | _ => some (0, [])

/-- `analyze_process` from analysis.py, on an already-parsed dict.  A
`TypeError` raised by a comparison on a non-numeric field, or by
`.get` on a non-dict connection entry, is `none`. -/
def analyzeProcess (proc : PyDict) : Option ProcResult :=
  let exe := normStr (dget proc "exe")
  let name := normStr (dget proc "name")
  let username := normStr (dget proc "username")
  let connections := (dget proc "connections").getD (JVal.arr [])
  match getNum proc "cpu_percent", getNum proc "memory_percent" with
  | some cpu, some mem =>
    match procConnPart connections with
    | some conn =>
      let e := procExeCheck exe
      let c := procCpuCheck cpu
      let m := procMemCheck mem
      let u := procUserCheck username cpu mem
      some { name := name, exe := exe, username := username,
             risk_score := e.1 + c.1 + m.1 + u.1 + conn.1,
             reasons := e.2 ++ c.2 ++ m.2 ++ u.2 ++ conn.2 }
    | none => none
  | _, _ => none

/- ==========================================================
   Specification-side definitions (claim wording)
   ========================================================== -/

/-- Spec reading of a numeric value: absent counts as 0 (non-numeric
values never reach this default in a proved statement, because the code
raises there first). -/
def specNumV (o : Option JVal) : Rat :=
  match o with
  | none => 0
  | some v => (pyNum v).getD 0

/-- Spec reading of a numeric field of a dict. -/
def specNumD (d : List (String × JVal)) (k : String) : Rat := specNumV (dget d k)

/-- Spec wording of the per-connection rule: remote address set and
lower-cased status outside the allowed set. -/
def specConnHit (c : JVal) : Bool :=
  match c with
  | JVal.obj kvs => connHit kvs
  | _ => false

/-- Spec wording: one point per qualifying connection. -/
def specConnCount (v : JVal) : Nat :=
  match v with
  | JVal.arr xs => (xs.filter specConnHit).length
  | _ => 0

/-- The section-4.5 process score as the claim words it: a plain sum of
independent rule weights. -/
def specProcessSum (proc : PyDict) : Nat :=
  let exe := normStr (dget proc "exe")
  let username := normStr (dget proc "username")
  let cpu := specNumD proc "cpu_percent"
  let mem := specNumD proc "memory_percent"
  (if exe = "" then 2 else 0)
  + (if suspiciousRoots.any (fun part => strContains (strLower exe) part) then 2 else 0)
  + (if exe.length > 260 then 1 else 0)
  + (if cpu > 50 then 2 else 0)
  + (if ¬cpu > 50 ∧ cpu > 20 then 1 else 0)
  + (if mem > 20 then 2 else 0)
  + (if ¬mem > 20 ∧ mem > 10 then 1 else 0)
  + (if strLower username ∈ ROOTS ∧ (cpu > 10 ∨ mem > 10) then 2 else 0)
  + specConnCount ((dget proc "connections").getD (JVal.arr []))

/-- The details map of the cryptojacker scenario of section 8. -/
def cryptoDetails : PyDict :=
  [("pid", JVal.num 42), ("name", JVal.str "miner"), ("exe", JVal.str "/tmp/x"),
   ("cpu_percent", JVal.num 85), ("memory_percent", JVal.num 5),
   ("username", JVal.str "root"), ("connections", JVal.arr [])]

/-- The cryptojacker scenario input exactly as the spec writes it: the
process fields nested under `details`. -/
def cryptoWrapper : PyDict :=
  [("type", JVal.str "process"), ("details", JVal.obj cryptoDetails)]

/- ==========================================================
   analysis.py — network-flow analyzer
   ========================================================== -/

/-- Output record of `analyze_network_flow`. -/
structure NetResult where
  src : JVal
  dst : JVal
  protocol : String
  size : JVal
  summary : String
  risk_score : Nat
  reasons : List String

/-- `bad_protocols` from `analyze_network_flow`. -/
def badProtocols : List String := ["icmp", "raw", "gre"]

/-- `src = flow.get('src') or flow.get('src_ip')`. -/
def netSrc (flow : PyDict) : JVal :=
  pyOr ((dget flow "src").getD JVal.null) ((dget flow "src_ip").getD JVal.null)

/-- `dst = flow.get('dst') or flow.get('dst_ip')`. -/
def netDst (flow : PyDict) : JVal :=
  pyOr ((dget flow "dst").getD JVal.null) ((dget flow "dst_ip").getD JVal.null)

/-- `size = flow.get('length', 0) or flow.get('packet_size', 0)`. -/
def netSizeVal (flow : PyDict) : JVal :=
  pyOr ((dget flow "length").getD (JVal.num 0)) ((dget flow "packet_size").getD (JVal.num 0))

/-- `protocol = normalize_str(flow.get('proto', '') or flow.get('protocol', '')).lower()`. -/
def netProtocol (flow : PyDict) : String :=
  strLower (normStrV (pyOr ((dget flow "proto").getD (JVal.str ""))
    ((dget flow "protocol").getD (JVal.str ""))))

/-- Large-packet check of `analyze_network_flow`. -/
def netSizeCheck (size : Rat) (sizeV : JVal) : Nat × List String :=
  if size > 2000 then
    (1, ["Unusually large packet size: " ++ pyStr sizeV ++ " bytes"])
  else (0, [])

/-- Dangerous-protocol check of `analyze_network_flow`. -/
def netProtoCheck (protocol : String) : Nat × List String :=
  if badProtocols.contains protocol then
    (1, ["Suspicious protocol detected: " ++ protocol])
  else (0, [])

/-- Public-destination check of `analyze_network_flow`. -/
def netDstCheck (dst : JVal) : Nat × List String :=
  if pyTruthy dst then
    let dstStr := pyStr dst
    let isPrivate := strStarts dstStr "10." || strStarts dstStr "192.168." ||
      strStarts dstStr "127." || strStarts dstStr "fe80:"
    if isPrivate = false ∧ dstStr ≠ "255.255.255.255" then
      (1, ["Connection to external/public IP: " ++ pyStr dst])
    else (0, [])
  else (0, [])

/-- `analyze_network_flow` from analysis.py on an already-parsed dict.
The size value is used in an order comparison, so a non-numeric truthy
size raises (`none`). -/
def analyzeNetworkFlow (flow : PyDict) : Option NetResult :=
  match pyNum (netSizeVal flow) with
  | none => none
  | some size =>
    some { src := netSrc flow, dst := netDst flow, protocol := netProtocol flow,
           size := netSizeVal flow, summary := normStr (dget flow "summary"),
           risk_score := (netSizeCheck size (netSizeVal flow)).1 +
             (netProtoCheck (netProtocol flow)).1 + (netDstCheck (netDst flow)).1,
           reasons := (netSizeCheck size (netSizeVal flow)).2 ++
             (netProtoCheck (netProtocol flow)).2 ++ (netDstCheck (netDst flow)).2 }

/-- Claim wording of the external-destination rule: destination set, not
in the private ranges, not the broadcast address. -/
def specDstInd (flow : PyDict) : Nat :=
  let dst := (dget flow "dst").getD JVal.null
  if pyTruthy dst ∧
      (strStarts (pyStr dst) "10." || strStarts (pyStr dst) "192.168." ||
        strStarts (pyStr dst) "127." || strStarts (pyStr dst) "fe80:") = false ∧
      pyStr dst ≠ "255.255.255.255" then 1 else 0

/-- The section-4.5 network score as the claim words it: one point per
matching rule, over the documented schema keys. -/
def specNetworkSum (flow : PyDict) : Nat :=
  (if specNumD flow "length" > 2000 then 1 else 0)
  + (if badProtocols.contains (strLower (normStrV ((dget flow "proto").getD (JVal.str "")))) then 1
     else 0)
  + specDstInd flow

/-- The ICMP-tunnel scenario input of section 8, as the claim flattens
it. -/
def icmpTunnelInput : PyDict :=
  [("dst", JVal.str "8.8.8.8"), ("proto", JVal.str "icmp"), ("length", JVal.num 3000)]

/-- The normal return of `analyze_network_flow` on the ICMP-tunnel
scenario input. -/
def icmpTunnelResult : NetResult :=
  { src := JVal.null, dst := JVal.str "8.8.8.8", protocol := "icmp",
    size := JVal.num 3000, summary := "",
    risk_score := 3,
    reasons := ["Unusually large packet size: " ++ pyStr (JVal.num 3000) ++ " bytes",
                "Suspicious protocol detected: icmp",
                "Connection to external/public IP: 8.8.8.8"] }

/- ==========================================================
   analysis.py — hardware analyzer
   ========================================================== -/

/-- `suspicious_paths` from `analyze_hardware`. -/
def suspiciousPaths : List String := ["tmp", "temp", "cache", "shm", "appdata"]

/-- Output record of `analyze_hardware` (the nested metrics renderings
are flattened into fields). -/
structure HwResult where
  process : String
  path : String
  risk_score : Nat
  reasons : List String
  cpuPct : String
  ramPct : String
  gpuVram : String

/-- High-load CPU block of `analyze_hardware`. -/
def hwCpuCheck (cpu : Rat) : Nat × List String :=
  if cpu > 80 then
    (3, ["Critical CPU spike (" ++ ratStr cpu ++ "%): Possible cryptominer or fork bomb."])
  else if cpu > 50 then (1, ["Elevated CPU usage."])
  else (0, [])

/-- GPU-memory block of `analyze_hardware`. -/
def hwGpuCheck (gpu : Rat) : Nat × List String :=
  if gpu > 1000 then
    (2, ["Heavy GPU memory usage (" ++ ratStr gpu ++
          " MB): Potential mining or unauthorized rendering."])
  else (0, [])

/-- RAM block of `analyze_hardware`. -/
def hwMemCheck (mem : Rat) : Nat × List String :=
  if mem > 70 then
    (4, ["CRITICAL: Memory exhaustion (" ++ ratStr mem ++
          "%). Potential Denial of Service or massive data buffer."])
  else if mem > 40 then
    (2, ["High memory usage (" ++ ratStr mem ++ "%): Unusual for background tasks."])
  else (0, [])

/-- Path-load correlation block of `analyze_hardware`. -/
def hwPathCheck (exe : String) (cpu gpu : Rat) : Nat × List String :=
  if exe ≠ "" ∧ suspiciousPaths.any (fun p => strContains (strLower exe) p) ∧
      (cpu > 30 ∨ gpu > 500) then
    (4, ["CRITICAL: High resource usage from suspicious path: " ++ exe])
  else (0, [])

/-- Anomaly-type block of `analyze_hardware`. -/
def hwSubCheck (sub_type exe : String) : Nat × List String :=
  if sub_type = "GPU_USAGE" ∧ exe = "" then
    (1, ["GPU usage detected from a process with no valid disk path."])
  else (0, [])

/-- `analyze_hardware` from analysis.py.  It reads the payload nested
under `details` and `details.metrics`; a non-dict at either level, or a
non-numeric metric, raises (`none`). -/
def analyzeHardware (event : PyDict) : Option HwResult :=
  match (dget event "details").getD (JVal.obj []) with
  | JVal.obj details =>
    match (dget details "metrics").getD (JVal.obj []) with
    | JVal.obj metrics =>
      let sub_type := strUpper (normStr (dget details "sub_type"))
      let exe := normStr (dget details "exe")
      let name := normStr (dget details "name")
      match getNum metrics "cpu_percent", getNum metrics "memory_percent" with
      | some cpu, some mem =>
        match pyNum (pyOr ((dget metrics "gpu_memory_mb").getD (JVal.num 0)) (JVal.num 0)) with
        | some gpu_mem =>
          let c := hwCpuCheck cpu
          let g := hwGpuCheck gpu_mem
          let m := hwMemCheck mem
          let p := hwPathCheck exe cpu gpu_mem
          let s := hwSubCheck sub_type exe
          some { process := name, path := exe,
                 risk_score := min (c.1 + g.1 + m.1 + p.1 + s.1) 10,
                 reasons := c.2 ++ g.2 ++ m.2 ++ p.2 ++ s.2,
                 cpuPct := ratStr cpu ++ "%", ramPct := ratStr mem ++ "%",
                 gpuVram := ratStr gpu_mem ++ " MB" }
        | none => none
      | _, _ => none
    | _ => none
  | _ => none

/-- The section-4.5 hardware raw sum as the claim words it. -/
def specHardwareSum (event : PyDict) : Nat :=
  let details := match (dget event "details").getD (JVal.obj []) with
    | JVal.obj kvs => kvs
    | _ => []
  let metrics := match (dget details "metrics").getD (JVal.obj []) with
    | JVal.obj kvs => kvs
    | _ => []
  let cpu := specNumD metrics "cpu_percent"
  let mem := specNumD metrics "memory_percent"
  let gpu := specNumD metrics "gpu_memory_mb"
  let exe := normStr (dget details "exe")
  let sub_type := strUpper (normStr (dget details "sub_type"))
  (if cpu > 80 then 3 else 0) + (if ¬cpu > 80 ∧ cpu > 50 then 1 else 0)
  + (if gpu > 1000 then 2 else 0)
  + (if mem > 70 then 4 else 0) + (if ¬mem > 70 ∧ mem > 40 then 2 else 0)
  + (if suspiciousPaths.any (fun p => strContains (strLower exe) p) ∧
        (cpu > 30 ∨ gpu > 500) then 4 else 0)
  + (if sub_type = "GPU_USAGE" ∧ exe = "" then 1 else 0)

/-- The hardware-spike scenario input of section 8. -/
def hwScenario : PyDict :=
  [("type", JVal.str "hardware_spike"),
   ("details", JVal.obj
     [("sub_type", JVal.str "RESOURCE_HOG"), ("exe", JVal.str "/tmp/hog"),
      ("metrics", JVal.obj
        [("cpu_percent", JVal.num 90), ("memory_percent", JVal.num 75)])])]

/- ==========================================================
   models/unified.py and rag/document_builder.py
   ========================================================== -/

/-- The normalized event record (`UnifiedEvent` in models/unified.py).
The UTC instant is modelled as a microsecond count. -/
structure UEvent where
  timestamp : Nat
  type : String
  details : JVal
  metadata : List (String × JVal)

/-- Modelled `datetime.isoformat()`: an injective rendering of the
modelled instant. -/
def tsIso (t : Nat) : String := "ts-" ++ toString t

/-- Modelled `datetime.timestamp()` as rendered inside the ID
f-string. -/
def tsEpoch (t : Nat) : String := toString t ++ ".0"

/-- The text block built by `event_to_document`: event type and
timestamp lines, flattened details, then indented metadata. -/
def docText (e : UEvent) : String :=
  let base := ["Event Type: " ++ e.type, "Timestamp: " ++ tsIso e.timestamp]
  let detailLines :=
    match e.details with
    | JVal.obj kvs => kvs.map (fun kv => kv.1 ++ ": " ++ pyStr kv.2)
    | v => ["Details: " ++ pyStr v]
  let metaLines :=
    if e.metadata.isEmpty then []
    else "Metadata:" :: e.metadata.map (fun kv => "  " ++ kv.1 ++ ": " ++ pyStr kv.2)
  String.intercalate "\n" (base ++ detailLines ++ metaLines)

/-- A document destined for the vector store. -/
structure VDoc where
  id : String
  text : String
  metadata : List (String × JVal)

/-- Metadata formatting of `event_to_document`: `type` and ISO
timestamp, then provenance entries with lists and dicts stringified. -/
def safeMeta (e : UEvent) : List (String × JVal) :=
  [("type", JVal.str e.type), ("timestamp", JVal.str (tsIso e.timestamp))] ++
    e.metadata.map (fun kv =>
      match kv.2 with
      | JVal.arr xs => (kv.1, JVal.str (pyStr (JVal.arr xs)))
      | JVal.obj kvs => (kv.1, JVal.str (pyStr (JVal.obj kvs)))
      | v => (kv.1, v))

/-- `event_to_document` from rag/document_builder.py.  The parameter `h`
is the interpreter string hash (fixed per process); the code masks it to
32 bits with `& 0xffffffff`.  No randomness enters the function: the
result is entirely determined by `h` and the event. -/
def eventToDocument (h : String → Int) (e : UEvent) : VDoc :=
  let text := docText e
  let contentHash := ((h text) % (2 ^ 32 : Int)).toNat
  { id := e.type ++ "_" ++ tsEpoch e.timestamp ++ "_" ++ toString contentHash,
    text := text,
    metadata := safeMeta e }

/-- A fixed stand-in for the per-process interpreter hash, used to
instantiate statements at a concrete input (the statements hold for
every `h`). -/
def sampleHash : String → Int := fun s => (s.length : Int)

/-- A concrete event used to evaluate the document projection. -/
def sampleEvent : UEvent :=
  { timestamp := 0, type := "process",
    details := JVal.obj [("pid", JVal.num 1)],
    metadata := [("os", JVal.str "linux")] }

/- ==========================================================
   storage/schema.py and storage/database.py
   ========================================================== -/

/-- A row of the `unified_events` table (storage/schema.py). -/
structure DBRow where
  timestamp : Nat
  event_type : String
  details : List (String × JVal)
  metadata_fields : List (String × JVal)

/-- The descending-timestamp order of `ORDER BY timestamp DESC`. -/
def rowGE (a b : DBRow) : Prop := b.timestamp ≤ a.timestamp

instance : DecidableRel rowGE := fun a b => Nat.decLe b.timestamp a.timestamp

instance : IsTotal DBRow rowGE := ⟨fun a b => Nat.le_total b.timestamp a.timestamp⟩

instance : IsTrans DBRow rowGE := ⟨fun _ _ _ hab hbc => le_trans hbc hab⟩

/-- Python dict-merge `{**a, **b}`: keys of `a` in order with values
overridden by `b`, then the new keys of `b`. -/
def pyMerge (a b : List (String × JVal)) : List (String × JVal) :=
  a.map (fun kv => (kv.1, (dget b kv.1).getD kv.2)) ++
    b.filter (fun kv => (dget a kv.1).isNone)

/-- The flattened query result of `get_recent_events`:
`{timestamp: iso, **details, **metadata_fields}`. -/
def flattenRow (row : DBRow) : List (String × JVal) :=
  pyMerge (pyMerge [("timestamp", JVal.str (tsIso row.timestamp))] row.details)
    row.metadata_fields

/-- The rows the query of `get_recent_events` selects: filter by type,
order by timestamp descending, apply `LIMIT`. -/
def selectRows (db : List DBRow) (etype : String) (lim : Nat) : List DBRow :=
  (List.insertionSort rowGE (db.filter (fun row => row.event_type == etype))).take lim

/-- `get_recent_events` from storage/database.py over a modelled table
state. -/
def getRecentEvents (db : List DBRow) (etype : String) (lim : Nat) :
    List (List (String × JVal)) :=
  (selectRows db etype lim).map flattenRow

/-- A concrete stored row used to evaluate the query path. -/
def row0 : DBRow :=
  { timestamp := 5, event_type := "process",
    details := [("pid", JVal.num 1)], metadata_fields := [("os", JVal.str "linux")] }

/-- `DatabaseWorker.add_event`: `self.queue.put(event)` on the
unbounded `queue.Queue()` created in `__init__` — a plain FIFO append.
There is no capacity argument, no drop path and no drop counter in the
source. -/
def addEvent (q : List UEvent) (e : UEvent) : List UEvent := q ++ [e]

/-- A family of concrete events for exercising the queue. -/
def mkEv (n : Nat) : UEvent :=
  { timestamp := n, type := "process", details := JVal.obj [], metadata := [] }

/-- The closed event-type set: the `EventType` Literal of
models/unified.py. -/
def eventTypes : List String :=
  ["network_flow", "process", "service_event", "hardware_spike", "malware_alert"]

/-- Pydantic validation at `UnifiedEvent` construction: `type` must be
one of the Literal values and `details` must be a dict; otherwise
construction raises a ValidationError. -/
def mkUnifiedEvent (ts : Nat) (ty : String) (details : JVal)
    (md : List (String × JVal)) : Except String UEvent :=
  if ty ∈ eventTypes then
    match details with
    | JVal.obj _ =>
      Except.ok { timestamp := ts, type := ty, details := details, metadata := md }
    | _ => Except.error "ValidationError: details is not a dict"
  else Except.error "ValidationError: type is not a valid EventType"

/-- A duck-typed event whose type is outside the closed set, as could
be handed to `add_event` (which annotates and checks nothing). -/
def bogusEvent : UEvent :=
  { timestamp := 0, type := "bogus", details := JVal.obj [], metadata := [] }

/- ==========================================================
   os_env.py and server.py
   ========================================================== -/

/-- A process environment: variable name to value. -/
def Env := String → Option String

/-- `os.getenv(k, d)`. -/
def osGetenv (env : Env) (k d : String) : String := (env k).getD d

/-- `SERVER_HOST = os.getenv('SEVER_HOST', '127.0.0.1')` from os_env.py
— note the misspelt variable name `SEVER_HOST` in the source. -/
def serverHost (env : Env) : String := osGetenv env "SEVER_HOST" "127.0.0.1"

/-- `SERVER_PORT = os.getenv('SERVER_PORT', 8080)`; the integer default
renders as `8080` in the URL f-string. -/
def serverPort (env : Env) : String := osGetenv env "SERVER_PORT" "8080"

/-- `MCP_SERVER_URL = f"http://{SERVER_HOST}:{SERVER_PORT}/mcp"`. -/
def mcpServerUrl (env : Env) : String :=
  "http://" ++ serverHost env ++ ":" ++ serverPort env ++ "/mcp"

/-- An environment that sets `SERVER_HOST` (correct spelling) and
nothing else. -/
def envServerHostSet : Env :=
  fun k => if k = "SERVER_HOST" then some "0.0.0.0" else none

/-- The empty environment. -/
def emptyEnv : Env := fun _ => none

/-- The attribute names defined on `DatabaseWorker` in
storage/database.py: the fields set in `__init__` and the methods.
There is no `stop`. -/
def databaseWorkerAttrs : List String :=
  ["queue", "running", "engine", "thread", "add_event", "_worker_loop",
   "get_recent_events", "_save_batch"]

/-- Python attribute lookup on the worker object. -/
def workerGetattr (name : String) : Option String :=
  if databaseWorkerAttrs.contains name then some name else none

/-- The `finally` block of `lifespan` in server.py ends by calling
`_db_worker.stop()`; an absent attribute raises AttributeError. -/
def lifespanStopWorker : Except String Unit :=
  match workerGetattr "stop" with
  | some _ => Except.ok ()
  | none => Except.error "AttributeError: DatabaseWorker has no attribute stop"

/- ==========================================================
   Theorems
   ========================================================== -/

theorem procExeCheck_score (exe : String) :
    (procExeCheck exe).1 =
      (if exe = "" then 2 else 0)
      + (if suspiciousRoots.any (fun part => strContains (strLower exe) part) then 2 else 0)
      + (if exe.length > 260 then 1 else 0) := by
  by_cases h : exe = ""
  · subst h
    have h1 : suspiciousRoots.any (fun part => strContains (strLower "") part) = false := by
      decide
    have h2 : ¬("" : String).length > 260 := by decide
    simp [procExeCheck, h1, h2]
  · simp only [procExeCheck, if_neg h]
    split_ifs <;> simp

theorem procCpuCheck_score (cpu : Rat) :
    (procCpuCheck cpu).1 =
      (if cpu > 50 then 2 else 0) + (if ¬cpu > 50 ∧ cpu > 20 then 1 else 0) := by
  unfold procCpuCheck
  split_ifs with h1 h2 h3 <;> simp_all

theorem procMemCheck_score (mem : Rat) :
    (procMemCheck mem).1 =
      (if mem > 20 then 2 else 0) + (if ¬mem > 20 ∧ mem > 10 then 1 else 0) := by
  unfold procMemCheck
  split_ifs with h1 h2 h3 <;> simp_all

theorem procUserCheck_score (u : String) (cpu mem : Rat) :
    (procUserCheck u cpu mem).1 =
      (if strLower u ∈ ROOTS ∧ (cpu > 10 ∨ mem > 10) then 2 else 0) := by
  unfold procUserCheck
  by_cases h : u = ""
  · subst h
    have : strLower "" ∉ ROOTS := by decide
    simp [this]
  · simp only [ne_eq, h, not_false_iff, true_and]
    split_ifs <;> rfl

theorem procConnCheck_score (xs : List JVal) (p : Nat × List String)
    (h : procConnCheck xs = some p) :
    p.1 = (xs.filter specConnHit).length := by
  induction xs generalizing p with
  | nil =>
    simp [procConnCheck] at h
    simp [← h]
  | cons c rest ih =>
    cases c with
    | obj kvs =>
      simp only [procConnCheck] at h
      cases hrest : procConnCheck rest with
      | none => rw [hrest] at h; simp at h
      | some q =>
        rw [hrest] at h
        simp only [Option.map_some'] at h
        by_cases hit : connHit kvs
        · rw [if_pos hit] at h
          have hp := Option.some.inj h
          have := ih q hrest
          simp [List.filter, specConnHit, hit, ← hp, this]
        · rw [if_neg hit] at h
          have hp := Option.some.inj h
          have := ih q hrest
          simp [List.filter, specConnHit, hit, ← hp, this]
    | null => simp [procConnCheck] at h
    | bool b => simp [procConnCheck] at h
    | num q => simp [procConnCheck] at h
    | str s => simp [procConnCheck] at h
    | arr ys => simp [procConnCheck] at h

theorem procConnPart_score (v : JVal) (p : Nat × List String)
    (h : procConnPart v = some p) : p.1 = specConnCount v := by
  cases v with
  | arr xs => exact (procConnCheck_score xs p h).trans (by simp [specConnCount])
  | null => have h' := Option.some.inj h; simp [← h', specConnCount]
  | bool b => have h' := Option.some.inj h; simp [← h', specConnCount]
  | num q => have h' := Option.some.inj h; simp [← h', specConnCount]
  | str s => have h' := Option.some.inj h; simp [← h', specConnCount]
  | obj kvs => have h' := Option.some.inj h; simp [← h', specConnCount]

theorem getNum_specNumD (d : List (String × JVal)) (k : String) (x : Rat)
    (h : getNum d k = some x) : specNumD d k = x := by
  unfold getNum at h
  unfold specNumD specNumV
  cases hd : dget d k with
  | none =>
    rw [hd] at h
    simp only [Option.some.injEq] at h
    simp [h]
  | some v =>
    rw [hd] at h
    have h' : pyNum v = some x := h
    simp [h']

/-- C1: `analyze_process` is pure (it is a function of its input in this
embedding), and whenever it returns normally its `risk_score` is exactly
the sum of the matching section-4.5 rule weights, with missing numeric
fields read as 0 and missing strings as empty. -/
theorem analyzeProcess_pure_and_spec_sum (p : PyDict) (r : ProcResult)
    (h : analyzeProcess p = some r) :
    analyzeProcess p = analyzeProcess p ∧ r.risk_score = specProcessSum p := by
  refine ⟨rfl, ?_⟩
  unfold analyzeProcess at h
  cases hc : getNum p "cpu_percent" with
  | none => rw [hc] at h; simp at h
  | some cpu =>
    cases hm : getNum p "memory_percent" with
    | none => rw [hc, hm] at h; simp at h
    | some mem =>
      rw [hc, hm] at h
      simp only at h
      cases hcp : procConnPart ((dget p "connections").getD (JVal.arr [])) with
      | none => rw [hcp] at h; simp at h
      | some conn =>
        rw [hcp] at h
        simp only [Option.some.injEq] at h
        have hrisk : r.risk_score =
            (procExeCheck (normStr (dget p "exe"))).1 + (procCpuCheck cpu).1 +
              (procMemCheck mem).1 +
              (procUserCheck (normStr (dget p "username")) cpu mem).1 + conn.1 := by
          rw [← h]
        rw [hrisk, procConnPart_score _ _ hcp]
        unfold specProcessSum
        rw [getNum_specNumD p "cpu_percent" cpu hc,
            getNum_specNumD p "memory_percent" mem hm]
        rw [procExeCheck_score, procCpuCheck_score, procMemCheck_score,
            procUserCheck_score]
        ring

/-- Witness for C1 at the benign-browser input of the spec: the process
analyzer returns normally there and its score matches the rule sum. -/
theorem analyzeProcess_pure_and_spec_sum_witness :
    ∃ r : ProcResult,
      analyzeProcess [("pid", JVal.num 1000), ("name", JVal.str "firefox"),
        ("exe", JVal.str "/usr/bin/firefox"), ("cpu_percent", JVal.num 5),
        ("memory_percent", JVal.num 3), ("username", JVal.str "alice")] = some r ∧
      r.risk_score = specProcessSum [("pid", JVal.num 1000), ("name", JVal.str "firefox"),
        ("exe", JVal.str "/usr/bin/firefox"), ("cpu_percent", JVal.num 5),
        ("memory_percent", JVal.num 3), ("username", JVal.str "alice")] := by
  refine ⟨{ name := "firefox", exe := "/usr/bin/firefox", username := "alice",
            risk_score := 0, reasons := [] }, ?h, ?_⟩
  case h => decide
  exact (analyzeProcess_pure_and_spec_sum _ _ (by decide)).2

/-- C3 counterexample: on the cryptojacker scenario input exactly as the
spec writes it (fields nested under `details`), `analyze_process` reads
its keys at the top level, finds none of them, and returns `risk_score`
2 (the no-executable rule), not 8. -/
theorem analyzeProcess_cryptojacker_wrapper_scores_two :
    (analyzeProcess cryptoWrapper).map ProcResult.risk_score = some 2 ∧
    (analyzeProcess cryptoWrapper).map ProcResult.risk_score ≠ some 8 := by
  constructor <;> decide

/-- C3 amended: applied to the scenario input as written (wrapper with
nested `details`) the analyzer returns `risk_score` 2 with only the
no-executable reason; applied to the flattened details map — the form
the pipeline's query API actually feeds it — it returns `risk_score` 6
(2 tmp-path + 2 high CPU + 2 privileged user) with reasons including
the suspicious-tmp-path string and the high-CPU string. -/
theorem analyzeProcess_cryptojacker_amended :
    (analyzeProcess cryptoWrapper).map ProcResult.risk_score = some 2 ∧
    (analyzeProcess cryptoWrapper).map ProcResult.reasons =
      some ["Process has no executable path (often hidden or kernel thread)."] ∧
    (analyzeProcess cryptoDetails).map ProcResult.risk_score = some 6 ∧
    (analyzeProcess cryptoDetails).map ProcResult.reasons =
      some ["Executable located in suspicious directory: /tmp/x",
            "High CPU usage (potential mining/loop).",
            "Privileged system process with unusual resource usage."] := by
  refine ⟨by decide, by decide, by decide, by decide⟩

theorem pyOr_zero_num (a : JVal) (x : Rat)
    (h : pyNum (pyOr a (JVal.num 0)) = some x) : (pyNum a).getD 0 = x := by
  by_cases ht : pyTruthy a = true
  · unfold pyOr at h
    rw [if_pos ht] at h
    simp [h]
  · unfold pyOr at h
    rw [if_neg ht] at h
    have hx : (0 : Rat) = x := Option.some.inj h
    rw [← hx]
    cases a with
    | null => rfl
    | bool b => cases b with
      | true => exact absurd rfl ht
      | false => rfl
    | num q =>
      have hq : q = 0 := by
        by_contra hq
        exact ht (by simp [pyTruthy, hq])
      simp [pyNum, hq]
    | str s => rfl
    | arr xs => rfl
    | obj kvs => rfl

theorem getD_zero_spec (o : Option JVal) (x : Rat)
    (h : pyNum (pyOr (o.getD (JVal.num 0)) (JVal.num 0)) = some x) :
    specNumV o = x := by
  cases o with
  | none =>
    simp only [Option.getD_none] at h
    have := pyOr_zero_num (JVal.num 0) x h
    simpa [specNumV] using this
  | some v =>
    simp only [Option.getD_some] at h
    exact pyOr_zero_num v x h

theorem netSizeVal_spec (flow : PyDict) (size : Rat)
    (hps : dget flow "packet_size" = none)
    (h : pyNum (netSizeVal flow) = some size) : specNumD flow "length" = size := by
  unfold netSizeVal at h
  rw [hps] at h
  simp only [Option.getD_none] at h
  exact getD_zero_spec (dget flow "length") size h

theorem proto_falsy_not_bad (v : JVal) (ht : ¬ pyTruthy v = true) :
    badProtocols.contains (strLower (normStrV v)) = false := by
  cases v with
  | null => decide
  | bool b => cases b with
    | true => exact absurd rfl ht
    | false => decide
  | num q =>
    have hq : q = 0 := by
      by_contra hq
      exact ht (by simp [pyTruthy, hq])
    subst hq
    decide
  | str s =>
    have hs : s = "" := by
      by_contra hs
      exact ht (by simp [pyTruthy, hs])
    subst hs
    decide
  | arr xs =>
    show badProtocols.contains (strLower "[list]") = false
    decide
  | obj kvs =>
    show badProtocols.contains (strLower "dict") = false
    decide

theorem netProtocol_bad_eq (flow : PyDict) (hpr : dget flow "protocol" = none) :
    badProtocols.contains (netProtocol flow) =
      badProtocols.contains (strLower (normStrV ((dget flow "proto").getD (JVal.str "")))) := by
  unfold netProtocol
  rw [hpr]
  simp only [Option.getD_none]
  by_cases ht : pyTruthy ((dget flow "proto").getD (JVal.str "")) = true
  · unfold pyOr
    rw [if_pos ht]
  · unfold pyOr
    rw [if_neg ht]
    rw [proto_falsy_not_bad _ ht]
    decide

theorem netDstCheck_spec (flow : PyDict) (hdi : dget flow "dst_ip" = none) :
    (netDstCheck (netDst flow)).1 = specDstInd flow := by
  unfold netDst
  rw [hdi]
  simp only [Option.getD_none]
  unfold specDstInd
  by_cases ht : pyTruthy ((dget flow "dst").getD JVal.null) = true
  · unfold pyOr
    rw [if_pos ht]
    unfold netDstCheck
    rw [if_pos ht]
    simp only [ht, true_and]
    split_ifs <;> rfl
  · unfold pyOr
    rw [if_neg ht]
    have h1 : (netDstCheck JVal.null).1 = 0 := rfl
    rw [h1]
    have h2 : ¬(pyTruthy ((dget flow "dst").getD JVal.null) = true ∧
        (strStarts (pyStr ((dget flow "dst").getD JVal.null)) "10." ||
          strStarts (pyStr ((dget flow "dst").getD JVal.null)) "192.168." ||
          strStarts (pyStr ((dget flow "dst").getD JVal.null)) "127." ||
          strStarts (pyStr ((dget flow "dst").getD JVal.null)) "fe80:") = false ∧
        pyStr ((dget flow "dst").getD JVal.null) ≠ "255.255.255.255") := by
      intro hc
      exact ht hc.1
    rw [if_neg h2]

/-- C4: whenever `analyze_network_flow` returns normally on a flow that
uses the documented schema keys (no `packet_size`/`protocol`/`dst_ip`
aliases), its `risk_score` is exactly one point for each of: length
over 2000, protocol among icmp/raw/gre, and a set, non-private,
non-broadcast destination.  Concretely: `dst = 10.0.0.1` earns no
external point, `dst = 8.8.8.8` earns exactly the one external point,
and the ICMP-tunnel scenario input scores 3. -/
theorem analyzeNetworkFlow_spec_sum :
    (∀ (flow : PyDict) (r : NetResult),
        dget flow "packet_size" = none → dget flow "protocol" = none →
        dget flow "dst_ip" = none →
        analyzeNetworkFlow flow = some r → r.risk_score = specNetworkSum flow)
    ∧ (analyzeNetworkFlow [("dst", JVal.str "10.0.0.1")]).map NetResult.risk_score = some 0
    ∧ (analyzeNetworkFlow [("dst", JVal.str "8.8.8.8")]).map NetResult.risk_score = some 1
    ∧ (analyzeNetworkFlow icmpTunnelInput).map NetResult.risk_score = some 3 := by
  refine ⟨?_, rfl, rfl, rfl⟩
  intro flow r hps hpr hdi h
  unfold analyzeNetworkFlow at h
  cases hs : pyNum (netSizeVal flow) with
  | none => rw [hs] at h; simp at h
  | some size =>
    rw [hs] at h
    simp only [Option.some.injEq] at h
    have hrisk : r.risk_score = (netSizeCheck size (netSizeVal flow)).1 +
        (netProtoCheck (netProtocol flow)).1 + (netDstCheck (netDst flow)).1 := by
      rw [← h]
    rw [hrisk]
    unfold specNetworkSum
    rw [netSizeVal_spec flow size hps hs]
    rw [← netProtocol_bad_eq flow hpr]
    rw [netDstCheck_spec flow hdi]
    unfold netSizeCheck netProtoCheck
    split_ifs <;> rfl

/-- Witness for C4: the schema hypotheses hold at the ICMP-tunnel
scenario input, the analyzer returns normally there, and the theorem
yields the claimed score equation. -/
theorem analyzeNetworkFlow_spec_sum_witness :
    dget icmpTunnelInput "packet_size" = none ∧
    icmpTunnelResult.risk_score = specNetworkSum icmpTunnelInput :=
  ⟨rfl, analyzeNetworkFlow_spec_sum.1 icmpTunnelInput icmpTunnelResult rfl rfl rfl rfl⟩

theorem hwCpuCheck_score (cpu : Rat) :
    (hwCpuCheck cpu).1 =
      (if cpu > 80 then 3 else 0) + (if ¬cpu > 80 ∧ cpu > 50 then 1 else 0) := by
  unfold hwCpuCheck
  split_ifs with h1 h2 h3 <;> simp_all

theorem hwGpuCheck_score (gpu : Rat) :
    (hwGpuCheck gpu).1 = if gpu > 1000 then 2 else 0 := by
  unfold hwGpuCheck
  split_ifs <;> rfl

theorem hwMemCheck_score (mem : Rat) :
    (hwMemCheck mem).1 =
      (if mem > 70 then 4 else 0) + (if ¬mem > 70 ∧ mem > 40 then 2 else 0) := by
  unfold hwMemCheck
  split_ifs with h1 h2 h3 <;> simp_all

theorem hwPathCheck_score (exe : String) (cpu gpu : Rat) :
    (hwPathCheck exe cpu gpu).1 =
      if suspiciousPaths.any (fun p => strContains (strLower exe) p) ∧
          (cpu > 30 ∨ gpu > 500) then 4 else 0 := by
  unfold hwPathCheck
  by_cases h : exe = ""
  · subst h
    have hsusp : suspiciousPaths.any (fun p => strContains (strLower "") p) = false := by
      decide
    simp [hsusp]
  · simp only [ne_eq, h, not_false_iff, true_and]
    split_ifs <;> rfl

theorem hwSubCheck_score (st exe : String) :
    (hwSubCheck st exe).1 = if st = "GPU_USAGE" ∧ exe = "" then 1 else 0 := by
  unfold hwSubCheck
  split_ifs <;> rfl

/-- C5: the hardware analyzer returns the section-4.5 weighted sum
clamped to at most 10; on the hardware-spike scenario the raw sum is 11
and the returned score is exactly 10. -/
theorem analyzeHardware_clamped_spec :
    (∀ (e : PyDict) (r : HwResult), analyzeHardware e = some r →
        r.risk_score = min (specHardwareSum e) 10)
    ∧ (analyzeHardware hwScenario).map HwResult.risk_score = some 10
    ∧ specHardwareSum hwScenario = 11 := by
  refine ⟨?_, rfl, by decide⟩
  intro e r h
  unfold analyzeHardware at h
  cases hd : (dget e "details").getD (JVal.obj []) with
  | obj details =>
    rw [hd] at h
    simp only at h
    cases hm : (dget details "metrics").getD (JVal.obj []) with
    | obj metrics =>
      rw [hm] at h
      simp only at h
      cases hc : getNum metrics "cpu_percent" with
      | none => rw [hc] at h; simp at h
      | some cpu =>
        cases hmm : getNum metrics "memory_percent" with
        | none => rw [hc, hmm] at h; simp at h
        | some mem =>
          rw [hc, hmm] at h
          simp only at h
          cases hg : pyNum (pyOr ((dget metrics "gpu_memory_mb").getD (JVal.num 0))
              (JVal.num 0)) with
          | none => rw [hg] at h; simp at h
          | some gpu =>
            rw [hg] at h
            simp only [Option.some.injEq] at h
            have hrisk : r.risk_score = min ((hwCpuCheck cpu).1 + (hwGpuCheck gpu).1 +
                (hwMemCheck mem).1 +
                (hwPathCheck (normStr (dget details "exe")) cpu gpu).1 +
                (hwSubCheck (strUpper (normStr (dget details "sub_type")))
                  (normStr (dget details "exe"))).1) 10 := by
              rw [← h]
            rw [hrisk]
            have hcpu : specNumD metrics "cpu_percent" = cpu :=
              getNum_specNumD metrics "cpu_percent" cpu hc
            have hmem : specNumD metrics "memory_percent" = mem :=
              getNum_specNumD metrics "memory_percent" mem hmm
            have hgpu : specNumD metrics "gpu_memory_mb" = gpu :=
              getD_zero_spec (dget metrics "gpu_memory_mb") gpu hg
            simp only [specHardwareSum, hd, hm, hcpu, hmem, hgpu,
                hwCpuCheck_score, hwGpuCheck_score, hwMemCheck_score,
                hwPathCheck_score, hwSubCheck_score]
            congr 1
            ring
    | null => rw [hm] at h; simp at h
    | bool b => rw [hm] at h; simp at h
    | num q => rw [hm] at h; simp at h
    | str s => rw [hm] at h; simp at h
    | arr xs => rw [hm] at h; simp at h
  | null => rw [hd] at h; simp at h
  | bool b => rw [hd] at h; simp at h
  | num q => rw [hd] at h; simp at h
  | str s => rw [hd] at h; simp at h
  | arr xs => rw [hd] at h; simp at h

/-- Witness for C5: the hardware analyzer returns normally on the
scenario input and the theorem gives the clamped score there. -/
theorem analyzeHardware_clamped_spec_witness :
    ∃ r : HwResult, analyzeHardware hwScenario = some r ∧
      r.risk_score = min (specHardwareSum hwScenario) 10 := by
  refine ⟨{ process := "", path := "/tmp/hog", risk_score := 10,
            reasons := ["Critical CPU spike (" ++ ratStr 90 ++
                          "%): Possible cryptominer or fork bomb.",
                        "CRITICAL: Memory exhaustion (" ++ ratStr 75 ++
                          "%). Potential Denial of Service or massive data buffer.",
                        "CRITICAL: High resource usage from suspicious path: /tmp/hog"],
            cpuPct := ratStr 90 ++ "%", ramPct := ratStr 75 ++ "%",
            gpuVram := ratStr 0 ++ " MB" }, rfl, ?_⟩
  exact analyzeHardware_clamped_spec.1 hwScenario _ rfl

/-- C2 counterexample: two projections of the same event have equal —
not different — IDs.  `event_to_document` appends no random tag: for the
fixed per-process hash (instantiated concretely here) the ID of the
sample event is one explicit string, both times. -/
theorem eventToDocument_id_collision :
    (eventToDocument sampleHash sampleEvent).id =
      (eventToDocument sampleHash sampleEvent).id ∧
    (eventToDocument sampleHash sampleEvent).id = "process_0.0_64" ∧
    (eventToDocument sampleHash sampleEvent).text =
      (eventToDocument sampleHash sampleEvent).text ∧
    (eventToDocument sampleHash sampleEvent).metadata =
      (eventToDocument sampleHash sampleEvent).metadata := by
  refine ⟨rfl, by decide, rfl, rfl⟩

/-- C2 amended: document projection is fully deterministic — two
projections of the same event agree on `text`, `metadata` and also on
`id`, which is `type_epochTimestamp_hash32(text)` with no random
component. -/
theorem eventToDocument_deterministic (h : String → Int) (e : UEvent) :
    (eventToDocument h e).text = (eventToDocument h e).text ∧
    (eventToDocument h e).metadata = (eventToDocument h e).metadata ∧
    (eventToDocument h e).id = (eventToDocument h e).id ∧
    (eventToDocument h e).id =
      e.type ++ "_" ++ tsEpoch e.timestamp ++ "_" ++
        toString (((h (docText e)) % (2 ^ 32 : Int)).toNat) :=
  ⟨rfl, rfl, rfl, rfl⟩

/-- C6: `get_recent_events(type, limit)` returns at most `limit`
results, each the flattening `{timestamp, **details, **metadata}` of a
stored row of the requested type, and the selected rows are ordered by
timestamp descending. -/
theorem getRecentEvents_spec (db : List DBRow) (etype : String) (lim : Nat) :
    (getRecentEvents db etype lim).length ≤ lim ∧
    (∀ x ∈ getRecentEvents db etype lim,
        ∃ row, row ∈ db ∧ row.event_type = etype ∧ x = flattenRow row) ∧
    List.Pairwise rowGE (selectRows db etype lim) ∧
    getRecentEvents db etype lim = (selectRows db etype lim).map flattenRow := by
  refine ⟨?_, ?_, ?_, rfl⟩
  · unfold getRecentEvents selectRows
    rw [List.length_map]
    exact List.length_take_le _ _
  · intro x hx
    unfold getRecentEvents selectRows at hx
    obtain ⟨row, hrow, hxeq⟩ := List.mem_map.mp hx
    have h1 : row ∈ List.insertionSort rowGE
        (db.filter (fun r => r.event_type == etype)) :=
      (List.take_sublist _ _).subset hrow
    have h2 : row ∈ db.filter (fun r => r.event_type == etype) := by
      simpa using h1
    have h3 := List.mem_filter.mp h2
    refine ⟨row, h3.1, ?_, hxeq.symm⟩
    simpa using h3.2
  · unfold selectRows
    exact List.Pairwise.sublist (List.take_sublist _ _)
      (List.sorted_insertionSort rowGE _)

set_option maxRecDepth 4000 in
/-- C7 counterexample: enqueuing 101 events into the empty queue leaves
all 101 in the queue in FIFO order — nothing is dropped at any queue
length, the oldest entry is still at the head, and there is no drop
counter in the worker at all. -/
theorem addEvent_unbounded_counterexample :
    ((List.range 101).foldl (fun q i => addEvent q (mkEv i)) []).length = 101 ∧
    ((List.range 101).foldl (fun q i => addEvent q (mkEv i)) []).head?.map
      UEvent.timestamp = some 0 := by
  constructor
  · decide
  · decide

/-- C7 amended: the writer queue is an unbounded FIFO; `add_event`
always appends (non-blocking on an unbounded queue) and never drops, so
the queue length grows by one on every enqueue without bound. -/
theorem addEvent_append_no_drop (q : List UEvent) (e : UEvent) :
    addEvent q e = q ++ [e] ∧ (addEvent q e).length = q.length + 1 :=
  ⟨rfl, by simp [addEvent]⟩

/-- C8 counterexample: `add_event` enqueues — rather than rejects — an
object whose type is outside the closed event-type set. -/
theorem addEvent_accepts_unknown_type :
    addEvent [] bogusEvent = [bogusEvent] ∧ bogusEvent.type ∉ eventTypes := by
  refine ⟨rfl, by decide⟩

/-- C8 amended: the closed-type invariant is enforced at `UnifiedEvent`
construction (the pydantic Literal), not at the writer boundary: every
successfully constructed event has a type in the closed set and an
unknown type fails construction, while `add_event` itself checks
nothing and appends whatever it is given. -/
theorem eventType_validated_at_model_not_writer :
    (∀ (ts : Nat) (ty : String) (details : JVal) (md : List (String × JVal))
        (e : UEvent), mkUnifiedEvent ts ty details md = Except.ok e →
        e.type ∈ eventTypes) ∧
    (mkUnifiedEvent 0 "bogus" (JVal.obj []) [] =
      Except.error "ValidationError: type is not a valid EventType") ∧
    (∀ (q : List UEvent) (e : UEvent), addEvent q e = q ++ [e]) := by
  refine ⟨?_, rfl, fun q e => rfl⟩
  intro ts ty details md e h
  unfold mkUnifiedEvent at h
  by_cases hty : ty ∈ eventTypes
  · rw [if_pos hty] at h
    cases details with
    | obj kvs =>
      simp only [Except.ok.injEq] at h
      rw [← h]
      exact hty
    | null => simp at h
    | bool b => simp at h
    | num q2 => simp at h
    | str s => simp at h
    | arr xs => simp at h
  · rw [if_neg hty] at h
    simp at h

/-- Witness for C8 amended: a well-typed construction succeeds and its
type is certified in the closed set by the theorem. -/
theorem eventType_validated_witness :
    ∃ e : UEvent, mkUnifiedEvent 7 "process" (JVal.obj []) [] = Except.ok e ∧
      e.type ∈ eventTypes := by
  refine ⟨{ timestamp := 7, type := "process", details := JVal.obj [],
            metadata := [] }, rfl, ?_⟩
  exact eventType_validated_at_model_not_writer.1 7 "process" (JVal.obj []) []
    _ rfl

/-- C9: os_env.py reads the host from the misspelt variable
`SEVER_HOST`, so in an environment that sets only `SERVER_HOST` the
configured host stays at the default `127.0.0.1` instead of the set
value; the defaults and the tool-endpoint URL shape are as specified. -/
theorem serverHost_ignores_SERVER_HOST :
    serverHost emptyEnv = "127.0.0.1" ∧
    serverPort emptyEnv = "8080" ∧
    mcpServerUrl emptyEnv = "http://127.0.0.1:8080/mcp" ∧
    serverHost envServerHostSet = "127.0.0.1" ∧
    serverHost envServerHostSet ≠ "0.0.0.0" := by
  refine ⟨rfl, rfl, by decide, by decide, by decide⟩

/-- C10: the shutdown path of server.py calls `_db_worker.stop()`, but
`DatabaseWorker` defines no `stop` attribute, so the call raises
AttributeError instead of performing the specified drain-and-close
sequence. -/
theorem lifespan_stop_raises :
    workerGetattr "stop" = none ∧
    lifespanStopWorker =
      Except.error "AttributeError: DatabaseWorker has no attribute stop" := by
  refine ⟨by decide, rfl⟩

/-- Witness for C6: on a one-row table the query returns that row
flattened, and the theorem certifies its provenance. -/
theorem getRecentEvents_spec_witness :
    ∃ row, row ∈ [row0] ∧ row.event_type = "process" ∧
      flattenRow row0 = flattenRow row :=
  (getRecentEvents_spec [row0] "process" 5).2.1 (flattenRow row0)
    (by rw [show getRecentEvents [row0] "process" 5 = [flattenRow row0] from rfl]
        exact List.mem_singleton_self _)
